import Mathlib

/-!
Verification development for `src/test-codecs.js` of the vidvur-mpv-poc
repository: a batch codec-capability probe driving an external mpv process.

The script is embedded shallowly:
* the pure classification logic (lines 97-119 of `test-codecs.js`) becomes
  pure Lean functions over `String`;
* the effectful probe `testVideo` (lines 43-154) becomes a total function
  over an oracle `Session` describing the responses of the external player, with
  an explicit clock and a log of the property names queried;
* the report aggregation in `printReport` (lines 161-221) becomes the pure
  fold `summarize`.
-/

namespace Vidvur

/-! ### Embeddings of the JavaScript string primitives used by the script -/

/-- Does `pat` occur at the very start of `l`?  (Helper for substring search.) -/
def subAt : List Char → List Char → Bool
  | [], _ => true
  | _ :: _, [] => false
  | p :: ps, c :: cs => p == c && subAt ps cs

/-- Does `pat` occur anywhere inside `l`?  (Helper for substring search.) -/
def hasSubstr (pat : List Char) : List Char → Bool
  | [] => pat.isEmpty
  | c :: cs => subAt pat (c :: cs) || hasSubstr pat cs

/-- Embeds JS `s.includes(pat)` (line 101): substring containment. -/
def strIncludes (s pat : String) : Bool :=
  hasSubstr pat.data s.data

/-- Insert a literal `'.'` before the first digit of a character list.
Embeds the effect of JS `replace(/(\d)/, ".$1")` (line 100): the non-global
regex rewrites only the first match, and `\d` matches `[0-9]`, i.e.
`Char.isDigit`. -/
def insDot : List Char → List Char
  | [] => []
  | c :: cs => if c.isDigit then '.' :: c :: cs else c :: insDot cs

/-- Embeds the `replace` call of line 100 on a rule entry: `"h263" ↦ "h.263"`. -/
def dotInsert (s : String) : String :=
  ⟨insDot s.data⟩

/-- Does the character list contain a digit? -/
def hasDigit (l : List Char) : Bool :=
  l.any fun c => c.isDigit

/-- Embeds JS `String.prototype.toLowerCase()` on the ASCII range
(lines 45, 97): `Char.toLower` maps `A`-`Z` to `a`-`z` and leaves every
other character unchanged. -/
def lowerStr (s : String) : String :=
  ⟨s.data.map Char.toLower⟩

/-- Embeds the Node `path.basename(p)` call (line 44): the part of the path after
the last `'/'`. -/
def basename (p : String) : String :=
  ⟨(p.data.reverse.takeWhile (fun c => c ≠ '/')).reverse⟩

/-- Embeds the Node `path.extname(p)` call (line 45): the suffix of the basename
from its last `'.'`, or `""` when the basename has no dot or only a leading
dot (hidden files). -/
def extname (p : String) : String :=
  let b := (basename p).data
  let r := b.reverse
  let pre := r.takeWhile (fun c => c ≠ '.')
  if pre.length = r.length then ""
  else if pre.length + 1 = r.length then ""
  else ⟨'.' :: pre.reverse⟩

/-! ### The rule set constants (lines 15-29) -/

/-- The VidVuR list of unsupported codecs (lines 15-23). -/
def VIDVUR_UNSUPPORTED_CODECS : List String :=
  ["h263", "h263p",
   "mpeg1video", "mpeg2video",
   "msmpeg4v2", "msmpeg4v3",
   "wmv1", "wmv2", "wmv3",
   "vc1", "rv40",
   "svq1", "svq3",
   "cinepak", "indeo3", "indeo5"]

/-- The VidVuR list of formats requiring conversion (lines 26-29). -/
def VIDVUR_CONVERSION_FORMATS : List String :=
  [".mov", ".mkv", ".avi", ".flv", ".wmv",
   ".mpg", ".mpeg", ".3gp"]

/-! ### Classification logic (lines 97-119) -/

/-- Embeds lines 98-102: the codec matches an unsupported-codec rule when
the lowercased codec string contains the rule entry, or the dot-inserted
variant of the entry, as a substring. -/
def codecUnsupportedOf (codecLower : String) (rules : List String) : Bool :=
  rules.any fun u => strIncludes codecLower u || strIncludes codecLower (dotInsert u)

/-- Embeds line 103: conversion is required when the codec matched an
unsupported-codec rule or the (lowercased) extension is in the
conversion-formats list. -/
def wouldConvertOf (codecLower ext : String) (rules exts : List String) : Bool :=
  codecUnsupportedOf codecLower rules || exts.contains ext

/-- Embeds lines 115-119: the reported reason, `none` when no conversion is
required; the codec check takes priority over the container check. -/
def reasonOf (codecLower ext : String) (rules exts : List String) : Option String :=
  if wouldConvertOf codecLower ext rules exts then
    (if codecUnsupportedOf codecLower rules then some "Unsupported codec"
     else some "Container format requires conversion")
  else none

/-- The canonicalization function of spec section 4.3, assembled from the
two normalization steps of the script: lowercasing (line 97) followed by
insertion of a literal `'.'` before the first digit run (line 100). -/
def canonicalizeCodec (c : String) : String :=
  dotInsert (lowerStr c)

/-! ### The probe (`testVideo`, lines 43-154)

The external mpv process is modelled by an oracle `Session` giving, per
file, the outcome and duration of `player.load`, and, per property name,
the outcome and duration of `player.getProperty`.  The probe threads an
explicit clock (embedding `Date.now()`) and a log of the property names it
queried. -/

/-- A dynamically-typed mpv property value: mpv returns strings
(`video-codec`, `file-format`) and numbers (dimensions, fps, duration). -/
inductive PropVal where
  | s (v : String)
  | n (v : ℚ)
deriving DecidableEq, Repr

/-- JS truthiness of a property value: `""` and `0` are falsy (the `!codec`
of line 91 and the `fps ? ... : "N/A"` of line 110). -/
def PropVal.falsy : PropVal → Bool
  | .s v => v = ""
  | .n q => q = 0

/-- Oracle for the external player process: the responses (and wall-clock
durations) of the IPC operations `testVideo` performs. -/
structure Session where
  /-- Outcome of `player.load(filePath)` (line 51); the error value is the
  message of the thrown error. -/
  load : String → Except String Unit
  /-- Wall-clock milliseconds taken by `player.load(filePath)`. -/
  loadDur : String → Nat
  /-- Outcome of `player.getProperty(name)` (lines 60-87); the error value
  is the message of the thrown error. -/
  getProp : String → Except String PropVal
  /-- Wall-clock milliseconds taken by `player.getProperty(name)`. -/
  propDur : String → Nat

/-- Clock and query log threaded through one probe. -/
structure IPCState where
  now : Nat
  queried : List String
deriving DecidableEq, Repr

/-- The settle delay of line 55: `setTimeout(resolve, 200)`. -/
def settleDelayMillis : Nat := 200

/-- Models one `try { x = await player.getProperty(name) } catch (e) { x =
null }` block (lines 59-88): the value on success, `none` on failure; the
clock advances by the duration of the read and the name is logged either
way. -/
def tryGetProperty (s : Session) (name : String) (st : IPCState) :
    Option PropVal × IPCState :=
  ((s.getProp name).toOption,
   { now := st.now + s.propDur name, queried := st.queried ++ [name] })

/-- Models the error-message fallback chain of lines 138-143
(`error?.message || JSON.stringify(...) || "Unknown error"`): in this
embedding errors carry their message, so the chain reduces to substituting
`"Unknown error"` for an empty message. -/
def errMsg (m : String) : String :=
  if m = "" then "Unknown error" else m

/-- One entry of the `results` array of the script.  A success entry (lines
105-120) populates every field; a failure entry (lines 146-150) carries
only `filename`, `success := false` and `error`, the remaining fields
staying at their defaults (`undefined` in JS, `none` here).  The source
additionally formats `width`/`height` into a `resolution` string and
`fps`/`duration` via `toFixed(2)`/`"N/A"`; those display-only renderings
are kept as the raw read outcomes here. -/
structure TestResult where
  filename : String
  codec : Option String := none
  format : Option PropVal := none
  width : Option PropVal := none
  height : Option PropVal := none
  fps : Option PropVal := none
  duration : Option PropVal := none
  loadTime : Nat := 0
  success : Bool
  wouldConvert : Bool := false
  reason : Option String := none
  error : Option String := none
deriving DecidableEq, Repr

/-- A failure entry (lines 146-150), its message run through the fallback
chain of lines 138-143. -/
def failResult (filename msg : String) : TestResult :=
  { filename := filename, success := false, error := some (errMsg msg) }

/-- Everything observable about one probe: the pushed result, the total
wall-clock time the probe took, and the property names queried in order. -/
structure ProbeOut where
  result : TestResult
  elapsed : Nat
  queried : List String
deriving DecidableEq, Repr

/-- The six property names read by `testVideo`, in source order
(lines 60, 65, 70, 75, 80, 85). -/
def propNames : List String :=
  ["video-codec", "file-format", "video-params/w", "video-params/h",
   "container-fps", "duration"]

/-- Embeds `testVideo(filePath)` (lines 43-154).  The clock starts at the
`Date.now()` of line 50; `loadTime` is taken at line 52, immediately after
`load` returns; then the 200 ms settle wait of line 55, then the six
property reads; `!codec` (line 91) throws into the outer catch, as does the
`TypeError` of line 97 when the codec value is a non-zero number. -/
def runProbe (s : Session) (filePath : String) : ProbeOut :=
  let filename := basename filePath
  let ext := lowerStr (extname filePath)
  match s.load filePath with
  | .error m =>
      { result := failResult filename m,
        elapsed := s.loadDur filePath, queried := [] }
  | .ok _ =>
      let st1 : IPCState := { now := s.loadDur filePath, queried := [] }
      let loadTime := st1.now
      let st2 : IPCState := { st1 with now := st1.now + settleDelayMillis }
      let (codec, st3) := tryGetProperty s "video-codec" st2
      let (format, st4) := tryGetProperty s "file-format" st3
      let (width, st5) := tryGetProperty s "video-params/w" st4
      let (height, st6) := tryGetProperty s "video-params/h" st5
      let (fps, st7) := tryGetProperty s "container-fps" st6
      let (duration, st8) := tryGetProperty s "duration" st7
      match codec with
      | some (.s codecStr) =>
          if codecStr = "" then
            { result := failResult filename "Could not detect video codec",
              elapsed := st8.now, queried := st8.queried }
          else
            let codecLower := lowerStr codecStr
            let codecUnsupported :=
              codecUnsupportedOf codecLower VIDVUR_UNSUPPORTED_CODECS
            let wouldConvert :=
              codecUnsupported || VIDVUR_CONVERSION_FORMATS.contains ext
            { result :=
                { filename := filename, codec := some codecStr,
                  format := format, width := width, height := height,
                  fps := fps, duration := duration,
                  loadTime := loadTime, success := true,
                  wouldConvert := wouldConvert,
                  reason :=
                    if wouldConvert then
                      (if codecUnsupported then some "Unsupported codec"
                       else some "Container format requires conversion")
                    else none,
                  error := none },
              elapsed := st8.now, queried := st8.queried }
      | some (.n q) =>
          if q = 0 then
            { result := failResult filename "Could not detect video codec",
              elapsed := st8.now, queried := st8.queried }
          else
            { result := failResult filename "codec.toLowerCase is not a function",
              elapsed := st8.now, queried := st8.queried }
      | none =>
          { result := failResult filename "Could not detect video codec",
            elapsed := st8.now, queried := st8.queried }

/-- Embeds the batch loop of `main` (lines 296-298): every file is probed
in order and its result pushed onto `results`; a failed probe does not
stop the loop. -/
def runBatch (s : Session) (files : List String) : List TestResult :=
  files.map fun f => (runProbe s f).result

/-! ### Report aggregation (`printReport`, lines 156-234)

`printReport` only prints, but every number it prints is a pure function of
the `results` array; `summarize` extracts that function. -/

/-- The aggregate numbers printed by `printReport`. -/
structure AggregateReport where
  /-- Embeds `results.length` (line 167). -/
  total : Nat
  /-- Embeds `successful.length` (lines 161, 168). -/
  succeededCount : Nat
  /-- Embeds `failed.length` (lines 162, 169). -/
  failedCount : Nat
  /-- Embeds `wouldConvert.length` (lines 163, 174-175), printed as both
  "VidVuR would convert" and "Saved conversions". -/
  conversionsAvoided : Nat
  /-- The average of line 197, printed only when `successful.length > 0`
  (line 196); `0` stands for the guarded-out empty case. -/
  averageLoadTimeMillis : ℚ
  /-- The `codecs` breakdown object of lines 207-211, keyed by the raw
  codec string, in first-seen order. -/
  perCodecCounts : List (String × Nat)
deriving DecidableEq, Repr

/-- Increment the count of `k` in an association list, appending a fresh entry
when absent: embeds lines 208-211 (`if (!codecs[r.codec]) codecs[r.codec] =
0; codecs[r.codec]++`). -/
def bumpCount (m : List (String × Nat)) (k : String) : List (String × Nat) :=
  match m with
  | [] => [(k, 1)]
  | (k', c) :: rest =>
      if k' = k then (k', c + 1) :: rest else (k', c) :: bumpCount rest k

/-- The pure content of `printReport` (lines 161-211): partition the
results by `success`, count the successful ones flagged `wouldConvert`,
average `loadTime` over the successful ones (guarded by the
`successful.length > 0` test of line 196), and tally codecs over the
successful ones. -/
def summarize (rs : List TestResult) : AggregateReport :=
  let successful := rs.filter fun r => r.success
  let failed := rs.filter fun r => !r.success
  let conv := successful.filter fun r => r.wouldConvert
  { total := rs.length
    succeededCount := successful.length
    failedCount := failed.length
    conversionsAvoided := conv.length
    averageLoadTimeMillis :=
      if successful.length > 0 then
        (successful.map fun r => (r.loadTime : ℚ)).sum / (successful.length : ℚ)
      else 0
    perCodecCounts :=
      successful.foldl (fun m r => bumpCount m (r.codec.getD "")) [] }

/-! ### Concrete oracle sessions used to instantiate the theorems -/

/-- A player whose `load` fails (with an empty message) on one particular
file and succeeds elsewhere, every property read succeeding. -/
def loadFailSession : Session :=
  { load := fun f => if f = "/videos/bad.avi" then .error "" else .ok ()
    loadDur := fun _ => 40
    getProp := fun name =>
      if name = "video-codec" then .ok (.s "h264")
      else if name = "file-format" then .ok (.s "mov,mp4,m4a,3gp,3g2,mj2")
      else .ok (.n 30)
    propDur := fun _ => 5 }

/-- A player for which the `container-fps` read fails while
`video-params/fps` would have been available. -/
def fpsFallbackSession : Session :=
  { load := fun _ => .ok ()
    loadDur := fun _ => 50
    getProp := fun name =>
      if name = "container-fps" then .error "property unavailable"
      else if name = "video-params/fps" then .ok (.n 25)
      else if name = "video-codec" then .ok (.s "h264")
      else .ok (.s "x")
    propDur := fun _ => 10 }

/-- A player with a 100 ms load and 10 ms property reads, everything
succeeding: with the 200 ms settle delay a full probe spans 360 ms. -/
def timingSession : Session :=
  { load := fun _ => .ok ()
    loadDur := fun _ => 100
    getProp := fun name =>
      if name = "video-codec" then .ok (.s "h264")
      else if name = "file-format" then .ok (.s "matroska,webm")
      else .ok (.n 24)
    propDur := fun _ => 10 }

/-- A player for which exactly one property read (`video-params/w`)
fails, all the others succeeding. -/
def widthFailSession : Session :=
  { load := fun _ => .ok ()
    loadDur := fun _ => 60
    getProp := fun name =>
      if name = "video-params/w" then .error "property unavailable"
      else if name = "video-codec" then .ok (.s "vp9")
      else if name = "file-format" then .ok (.s "matroska,webm")
      else .ok (.n 2)
    propDur := fun _ => 3 }

/-- A session driving codec `"h264"`, used to instantiate the
classification theorem on a `.mov` file. -/
def h264Session : Session :=
  { load := fun _ => .ok ()
    loadDur := fun _ => 80
    getProp := fun name =>
      if name = "video-codec" then .ok (.s "h264")
      else if name = "file-format" then .ok (.s "mov,mp4,m4a,3gp,3g2,mj2")
      else .ok (.n 20)
    propDur := fun _ => 4 }

/-- A successful probe entry, as the script would push it, for the report
theorems. -/
def sampleOkResult : TestResult :=
  { filename := "ok.mp4", codec := some "h264", format := some (.s "mp4")
    width := some (.n 1920), height := some (.n 1080)
    fps := some (.n 30), duration := some (.n 12)
    loadTime := 120, success := true, wouldConvert := false
    reason := none, error := none }

/-- A failed probe entry, as the script would push it (lines 146-150). -/
def sampleFailResult : TestResult :=
  failResult "bad.avi" "codec undetectable"

/-! ### Character-level facts about `Char.toLower` and `Char.isDigit` -/

theorem char_toNat_ofNat {n : Nat} (h : n < 55296) : (Char.ofNat n).toNat = n := by
  have hv : n.isValidChar := Or.inl h
  unfold Char.ofNat
  rw [dif_pos hv]
  rfl

theorem char_isDigit_eq (c : Char) :
    c.isDigit = decide (48 ≤ c.toNat ∧ c.toNat ≤ 57) := by
  simp only [Char.isDigit, ← Bool.decide_and]
  apply decide_eq_decide.mpr
  simp only [GE.ge, UInt32.le_def, BitVec.le_def, Char.toNat, UInt32.toNat]
  have h48 : (UInt32.toBitVec 48).toNat = 48 := by decide
  have h57 : (UInt32.toBitVec 57).toNat = 57 := by decide
  rw [h48, h57]

theorem char_toLower_toNat (c : Char) :
    (Char.toLower c).toNat =
      if c.toNat ≥ 65 ∧ c.toNat ≤ 90 then c.toNat + 32 else c.toNat := by
  unfold Char.toLower
  split
  next h => rw [if_pos h]; exact char_toNat_ofNat (by omega)
  next h => rw [if_neg h]

theorem char_toLower_of_not {c : Char} (h : ¬(c.toNat ≥ 65 ∧ c.toNat ≤ 90)) :
    Char.toLower c = c := by
  unfold Char.toLower
  rw [if_neg h]

theorem char_toLower_toLower (c : Char) :
    (Char.toLower c).toLower = Char.toLower c := by
  by_cases h : c.toNat ≥ 65 ∧ c.toNat ≤ 90
  · apply char_toLower_of_not
    rw [char_toLower_toNat, if_pos h]
    omega
  · rw [char_toLower_of_not h]
    exact char_toLower_of_not h

theorem char_isDigit_toLower (c : Char) :
    (Char.toLower c).isDigit = c.isDigit := by
  by_cases h : c.toNat ≥ 65 ∧ c.toNat ≤ 90
  · rw [char_isDigit_eq, char_isDigit_eq c, char_toLower_toNat, if_pos h]
    apply decide_eq_decide.mpr
    omega
  · rw [char_toLower_of_not h]

/-! ### Facts about the dot-insertion and lowercasing passes -/

theorem insDot_of_not_hasDigit {l : List Char} (h : hasDigit l = false) :
    insDot l = l := by
  induction l with
  | nil => rfl
  | cons c cs ih =>
      simp only [hasDigit, List.any_cons, Bool.or_eq_false_iff] at h
      simp [insDot, h.1, ih h.2]

theorem length_insDot_of_hasDigit {l : List Char} (h : hasDigit l = true) :
    (insDot l).length = l.length + 1 := by
  induction l with
  | nil => simp [hasDigit] at h
  | cons c cs ih =>
      by_cases hc : c.isDigit = true
      · simp [insDot, hc]
      · simp only [hasDigit, List.any_cons, Bool.or_eq_true_iff] at h
        rcases h with h | h
        · exact absurd h hc
        · simp [insDot, hc, ih h]

theorem hasDigit_insDot (l : List Char) : hasDigit (insDot l) = hasDigit l := by
  induction l with
  | nil => rfl
  | cons c cs ih =>
      by_cases hc : c.isDigit = true
      · simp [insDot, hasDigit, hc]
      · simp only [insDot, Bool.not_eq_true] at hc ⊢
        rw [if_neg (by simp [hc])]
        simp [hasDigit, List.any_cons] at ih ⊢
        rw [ih]

theorem hasDigit_map_toLower (l : List Char) :
    hasDigit (l.map Char.toLower) = hasDigit l := by
  induction l with
  | nil => rfl
  | cons c cs ih =>
      simp [hasDigit, List.any_cons, char_isDigit_toLower] at ih ⊢
      rw [ih]

theorem map_toLower_toLower (l : List Char) :
    (l.map Char.toLower).map Char.toLower = l.map Char.toLower := by
  induction l with
  | nil => rfl
  | cons c cs ih => simp [char_toLower_toLower, ih]

/-! ### Claim theorems -/

/-- C1: for every rule set containing the codec entry `"h263"` and every
probed codec string equal, in any letter case, to `"h263"` or `"h.263"`,
the classification reports an unsupported-codec match: `wouldConvert` is
true and the reason is the unsupported-codec one, whatever the file
extension and container list are.  Both the plain and the dot-delimited
form of the rule entry match. -/
theorem h263_plain_and_dotted_match
    (rules exts : List String) (codec ext : String)
    (hr : "h263" ∈ rules)
    (hc : lowerStr codec = "h263" ∨ lowerStr codec = "h.263") :
    wouldConvertOf (lowerStr codec) ext rules exts = true ∧
    reasonOf (lowerStr codec) ext rules exts = some "Unsupported codec" := by
  have hcu : codecUnsupportedOf (lowerStr codec) rules = true := by
    unfold codecUnsupportedOf
    apply List.any_eq_true.mpr
    refine ⟨"h263", hr, ?_⟩
    rcases hc with h | h <;> rw [h] <;> decide
  refine ⟨?_, ?_⟩
  · unfold wouldConvertOf
    rw [hcu]
    rfl
  · unfold reasonOf wouldConvertOf
    rw [hcu]
    simp

/-- Witness for C1: the rule set of the program, probed codec `"H.263"`,
extension `".mp4"`. -/
theorem h263_plain_and_dotted_match_witness :
    wouldConvertOf (lowerStr "H.263") ".mp4"
        VIDVUR_UNSUPPORTED_CODECS VIDVUR_CONVERSION_FORMATS = true ∧
    reasonOf (lowerStr "H.263") ".mp4"
        VIDVUR_UNSUPPORTED_CODECS VIDVUR_CONVERSION_FORMATS = some "Unsupported codec" :=
  h263_plain_and_dotted_match VIDVUR_UNSUPPORTED_CODECS VIDVUR_CONVERSION_FORMATS
    "H.263" ".mp4" (by decide) (Or.inr (by decide))

/-- C3 counterexample: the canonicalization of spec section 4.3
(lowercasing plus dot-insertion, exactly the normalization the code applies
at line 100) is not idempotent: on `"h263"` one application gives `"h.263"` but a
second application inserts another dot, giving `"h..263"`. -/
theorem canonicalizeCodec_not_idempotent :
    canonicalizeCodec "h263" = "h.263" ∧
    canonicalizeCodec (canonicalizeCodec "h263") = "h..263" ∧
    canonicalizeCodec (canonicalizeCodec "h263") ≠ canonicalizeCodec "h263" := by
  decide

/-- C3 (amended): `canonicalizeCodec` is idempotent exactly on codec
strings containing no digit; on a string containing a digit the second
application inserts an additional literal dot before the first digit run,
so applying it twice never agrees with applying it once there. -/
theorem canonicalizeCodec_idempotent_iff (c : String) :
    canonicalizeCodec (canonicalizeCodec c) = canonicalizeCodec c ↔
      hasDigit c.data = false := by
  constructor
  · intro h
    by_contra hd
    rw [Bool.not_eq_false] at hd
    have h1 : hasDigit (c.data.map Char.toLower) = true := by
      rw [hasDigit_map_toLower]; exact hd
    have h2 : hasDigit (canonicalizeCodec c).data = true := by
      show hasDigit (insDot (c.data.map Char.toLower)) = true
      rw [hasDigit_insDot]; exact h1
    have h3 : hasDigit ((canonicalizeCodec c).data.map Char.toLower) = true := by
      rw [hasDigit_map_toLower]; exact h2
    have hlen : (canonicalizeCodec (canonicalizeCodec c)).data.length
        = ((canonicalizeCodec c).data.map Char.toLower).length + 1 := by
      show (insDot ((canonicalizeCodec c).data.map Char.toLower)).length = _
      exact length_insDot_of_hasDigit h3
    rw [h] at hlen
    simp only [List.length_map] at hlen
    omega
  · intro hd
    have h1 : hasDigit (c.data.map Char.toLower) = false := by
      rw [hasDigit_map_toLower]; exact hd
    have e1 : canonicalizeCodec c = ⟨c.data.map Char.toLower⟩ := by
      show (⟨insDot (c.data.map Char.toLower)⟩ : String) = _
      rw [insDot_of_not_hasDigit h1]
    rw [e1]
    show (⟨insDot ((c.data.map Char.toLower).map Char.toLower)⟩ : String) = _
    rw [map_toLower_toLower, insDot_of_not_hasDigit h1]

/-- C10: codec matching is substring containment, not exact equality: any
rule entry (or its dot-inserted variant) occurring anywhere inside the
lowercased probed codec string — in particular as a proper substring of a
longer, different codec name — makes the verdict an unsupported-codec one. -/
theorem codec_match_is_substring_containment
    (codec ext : String) (rules exts : List String) (u : String)
    (hu : u ∈ rules)
    (hmatch : strIncludes (lowerStr codec) u = true ∨
              strIncludes (lowerStr codec) (dotInsert u) = true) :
    wouldConvertOf (lowerStr codec) ext rules exts = true ∧
    reasonOf (lowerStr codec) ext rules exts = some "Unsupported codec" := by
  have hcu : codecUnsupportedOf (lowerStr codec) rules = true := by
    unfold codecUnsupportedOf
    apply List.any_eq_true.mpr
    refine ⟨u, hu, ?_⟩
    rcases hmatch with h | h <;> simp [h]
  refine ⟨?_, ?_⟩
  · unfold wouldConvertOf
    rw [hcu]
    rfl
  · unfold reasonOf wouldConvertOf
    rw [hcu]
    simp

/-- C2: whenever a probe succeeds, its verdict requires conversion exactly
when the lowercased codec matches an unsupported-codec rule or the
lowercased extension of the file is in the conversion-formats list; the reported
reason gives the codec check priority over the container check and is
absent when no conversion is required.  The rule set is the constant pair
of lists of the program. -/
theorem classification_disjunction_and_priority
    (s : Session) (f : String) (codecStr : String)
    (hload : s.load f = .ok ())
    (hcodec : s.getProp "video-codec" = .ok (.s codecStr))
    (hne : codecStr ≠ "") :
    (runProbe s f).result.success = true ∧
    ((runProbe s f).result.wouldConvert = true ↔
      (codecUnsupportedOf (lowerStr codecStr) VIDVUR_UNSUPPORTED_CODECS = true ∨
       lowerStr (extname f) ∈ VIDVUR_CONVERSION_FORMATS)) ∧
    (runProbe s f).result.reason =
      (if codecUnsupportedOf (lowerStr codecStr) VIDVUR_UNSUPPORTED_CODECS = true
       then some "Unsupported codec"
       else if lowerStr (extname f) ∈ VIDVUR_CONVERSION_FORMATS
       then some "Container format requires conversion"
       else none) := by
  unfold runProbe
  rw [hload]
  simp only [tryGetProperty]
  rw [hcodec]
  simp only [Except.toOption, hne, if_neg, if_false]
  by_cases h1 : codecUnsupportedOf (lowerStr codecStr) VIDVUR_UNSUPPORTED_CODECS = true
  · by_cases h2 : lowerStr (extname f) ∈ VIDVUR_CONVERSION_FORMATS
    · simp [h1, h2]
    · simp [h1, h2]
  · by_cases h2 : lowerStr (extname f) ∈ VIDVUR_CONVERSION_FORMATS
    · simp [h1, h2]
    · simp [h1, h2]

/-- Witness for C2: an `"h264"` probe of a `.mov` file: the codec does not
match, the container does, so conversion is required for the container
reason. -/
theorem classification_disjunction_and_priority_witness :
    (runProbe h264Session "/videos/sample.MOV").result.success = true ∧
    ((runProbe h264Session "/videos/sample.MOV").result.wouldConvert = true ↔
      (codecUnsupportedOf (lowerStr "h264") VIDVUR_UNSUPPORTED_CODECS = true ∨
       lowerStr (extname "/videos/sample.MOV") ∈ VIDVUR_CONVERSION_FORMATS)) ∧
    (runProbe h264Session "/videos/sample.MOV").result.reason =
      (if codecUnsupportedOf (lowerStr "h264") VIDVUR_UNSUPPORTED_CODECS = true
       then some "Unsupported codec"
       else if lowerStr (extname "/videos/sample.MOV") ∈ VIDVUR_CONVERSION_FORMATS
       then some "Container format requires conversion"
       else none) :=
  classification_disjunction_and_priority h264Session "/videos/sample.MOV" "h264"
    rfl rfl (by decide)

/-- C5 counterexample: a session whose `container-fps` read fails while
`video-params/fps` is available with value 25: the probe still succeeds
but records no frame rate and never queries `video-params/fps` — there is
no fallback read, contradicting the claim. -/
theorem fps_no_fallback_counterexample :
    fpsFallbackSession.getProp "container-fps" = .error "property unavailable" ∧
    fpsFallbackSession.getProp "video-params/fps" = .ok (.n 25) ∧
    (runProbe fpsFallbackSession "/videos/clip.mp4").result.success = true ∧
    (runProbe fpsFallbackSession "/videos/clip.mp4").result.fps = none ∧
    "video-params/fps" ∉ (runProbe fpsFallbackSession "/videos/clip.mp4").queried := by
  refine ⟨rfl, rfl, by decide, by decide, by decide⟩

/-- C5 (amended): the probe reads the frame rate from `container-fps`
only; when that read fails the frame rate is recorded as absent, and
`video-params/fps` is never queried. -/
theorem fps_read_no_fallback (s : Session) (f : String) (e : String)
    (hload : s.load f = .ok ())
    (hfps : s.getProp "container-fps" = .error e) :
    (runProbe s f).result.fps = none ∧
    "video-params/fps" ∉ (runProbe s f).queried := by
  unfold runProbe
  rw [hload]
  simp only [tryGetProperty]
  rcases hc : ((s.getProp "video-codec").toOption) with _ | v
  · simp [hc, hfps, Except.toOption, failResult]
  · rcases v with w | q
    · by_cases hw : w = "" <;> simp [hc, hw, hfps, Except.toOption, failResult]
    · by_cases hq : q = 0 <;> simp [hc, hq, hfps, Except.toOption, failResult]

/-- Witness for C5 (amended), at the concrete fps-failing session. -/
theorem fps_read_no_fallback_witness :
    (runProbe fpsFallbackSession "/videos/clip2.mp4").result.fps = none ∧
    "video-params/fps" ∉ (runProbe fpsFallbackSession "/videos/clip2.mp4").queried :=
  fps_read_no_fallback fpsFallbackSession "/videos/clip2.mp4" "property unavailable"
    rfl rfl

/-- C6 counterexample: with a 100 ms load, 10 ms property reads and the
200 ms settle delay, the recorded `loadTime` is 100 ms while the whole
probe sequence (load, settle wait, six reads) spans 360 ms: `loadTime` is
taken immediately after `load`, not after the settle wait and reads, so it
does not cover the whole sequence. -/
theorem loadTime_before_settle_counterexample :
    (runProbe timingSession "/videos/clip.mkv").result.success = true ∧
    (runProbe timingSession "/videos/clip.mkv").result.loadTime = 100 ∧
    (runProbe timingSession "/videos/clip.mkv").elapsed = 360 ∧
    (runProbe timingSession "/videos/clip.mkv").result.loadTime ≠
      (runProbe timingSession "/videos/clip.mkv").elapsed := by
  refine ⟨by decide, by decide, by decide, by decide⟩

/-- C6 (amended): the recorded load time is computed immediately after
`load` returns, before the settle wait and the property reads, and so
equals the duration of the load step alone; the total elapsed time of the
probe is
the load duration plus the settle delay plus the six property-read
durations. -/
theorem loadTime_covers_load_only (s : Session) (f : String)
    (hload : s.load f = .ok ()) :
    (runProbe s f).elapsed =
      s.loadDur f + settleDelayMillis + (propNames.map s.propDur).sum ∧
    ((runProbe s f).result.success = true →
      (runProbe s f).result.loadTime = s.loadDur f) := by
  unfold runProbe
  rw [hload]
  simp only [tryGetProperty]
  rcases hc : ((s.getProp "video-codec").toOption) with _ | v
  · simp [hc, propNames, failResult]
    omega
  · rcases v with w | q
    · by_cases hw : w = "" <;> simp [hc, hw, propNames, failResult] <;> omega
    · by_cases hq : q = 0 <;> simp [hc, hq, propNames, failResult] <;> omega

/-- Witness for C6 (amended), at the concrete timing session. -/
theorem loadTime_covers_load_only_witness :
    (runProbe timingSession "/videos/clip2.mkv").elapsed =
      timingSession.loadDur "/videos/clip2.mkv" + settleDelayMillis +
        (propNames.map timingSession.propDur).sum ∧
    ((runProbe timingSession "/videos/clip2.mkv").result.success = true →
      (runProbe timingSession "/videos/clip2.mkv").result.loadTime =
        timingSession.loadDur "/videos/clip2.mkv") :=
  loadTime_covers_load_only timingSession "/videos/clip2.mkv" rfl

/-- C7: once `load` succeeds, all six property reads are attempted, in
source order, whatever the outcome of each; and on a successful probe each
recorded property equals the outcome of its own read — a failed read
substitutes an absent value for that property only. -/
theorem property_reads_independent (s : Session) (f : String)
    (hload : s.load f = .ok ()) :
    (runProbe s f).queried = propNames ∧
    ((runProbe s f).result.success = true →
      (runProbe s f).result.format = (s.getProp "file-format").toOption ∧
      (runProbe s f).result.width = (s.getProp "video-params/w").toOption ∧
      (runProbe s f).result.height = (s.getProp "video-params/h").toOption ∧
      (runProbe s f).result.fps = (s.getProp "container-fps").toOption ∧
      (runProbe s f).result.duration = (s.getProp "duration").toOption) := by
  unfold runProbe
  rw [hload]
  simp only [tryGetProperty]
  rcases hc : ((s.getProp "video-codec").toOption) with _ | v
  · simp [hc, propNames, failResult]
  · rcases v with w | q
    · by_cases hw : w = "" <;> simp [hc, hw, propNames, failResult]
    · by_cases hq : q = 0 <;> simp [hc, hq, propNames, failResult]

/-- Witness for C7: a session where exactly the `video-params/w` read
fails: all six names are still queried and every other recorded property
carries the value of its own read. -/
theorem property_reads_independent_witness :
    (runProbe widthFailSession "/videos/c.webm").queried = propNames ∧
    ((runProbe widthFailSession "/videos/c.webm").result.success = true →
      (runProbe widthFailSession "/videos/c.webm").result.format =
        (widthFailSession.getProp "file-format").toOption ∧
      (runProbe widthFailSession "/videos/c.webm").result.width =
        (widthFailSession.getProp "video-params/w").toOption ∧
      (runProbe widthFailSession "/videos/c.webm").result.height =
        (widthFailSession.getProp "video-params/h").toOption ∧
      (runProbe widthFailSession "/videos/c.webm").result.fps =
        (widthFailSession.getProp "container-fps").toOption ∧
      (runProbe widthFailSession "/videos/c.webm").result.duration =
        (widthFailSession.getProp "duration").toOption) :=
  property_reads_independent widthFailSession "/videos/c.webm" rfl

theorem errMsg_ne_empty (m : String) : errMsg m ≠ "" := by
  unfold errMsg
  split
  · decide
  · assumption

/-- Any failed probe result carries a populated (non-empty) error
message. -/
theorem runProbe_error_populated (s : Session) (f : String)
    (hfail : (runProbe s f).result.success = false) :
    ∃ m, (runProbe s f).result.error = some m ∧ m ≠ "" := by
  unfold runProbe at hfail ⊢
  rcases hl : s.load f with m | u
  case error =>
      exact ⟨errMsg m, rfl, errMsg_ne_empty m⟩
  case ok =>
      cases u
      rw [hl] at hfail
      simp only [tryGetProperty] at hfail ⊢
      rcases hc : ((s.getProp "video-codec").toOption) with _ | v
      · exact ⟨errMsg "Could not detect video codec", by simp [failResult],
          errMsg_ne_empty _⟩
      · rcases v with w | q
        · by_cases hw : w = ""
          · refine ⟨errMsg "Could not detect video codec", ?_, errMsg_ne_empty _⟩
            simp [hw, failResult]
          · rw [hc] at hfail
            simp [hw, failResult] at hfail
        · by_cases hq : q = 0
          · refine ⟨errMsg "Could not detect video codec", ?_, errMsg_ne_empty _⟩
            simp [hq, failResult]
          · refine ⟨errMsg "codec.toLowerCase is not a function", ?_, errMsg_ne_empty _⟩
            simp [hq, failResult]

/-- C4: probing never fails outward — `runProbe` is a total function into
per-file results — and every internal failure is captured in the returned
entry as `success = false` with a populated (non-empty) error message,
while the batch goes on to probe every remaining file: the batch always
produces exactly one entry per input file. -/
theorem probe_failures_captured_batch_continues (s : Session) (files : List String) :
    (runBatch s files).length = files.length ∧
    (∀ r ∈ runBatch s files, r.success = false →
      ∃ m, r.error = some m ∧ m ≠ "") := by
  constructor
  · simp [runBatch]
  · intro r hr hfail
    simp only [runBatch, List.mem_map] at hr
    obtain ⟨f, _, rfl⟩ := hr
    exact runProbe_error_populated s f hfail

/-- Witness for C4: a batch of two files whose first `load` fails with an
empty message: both files produce entries (the bad file does not abort the
batch) and the message of the failed entry is the non-empty fallback text. -/
theorem probe_failures_captured_batch_continues_witness :
    (runBatch loadFailSession ["/videos/bad.avi", "/videos/ok.mp4"]).length = 2 ∧
    (∃ m, (runProbe loadFailSession "/videos/bad.avi").result.error = some m ∧ m ≠ "") :=
  ⟨(probe_failures_captured_batch_continues loadFailSession
      ["/videos/bad.avi", "/videos/ok.mp4"]).1,
   (probe_failures_captured_batch_continues loadFailSession
      ["/videos/bad.avi", "/videos/ok.mp4"]).2
     (runProbe loadFailSession "/videos/bad.avi").result
     (by simp [runBatch]) (by decide)⟩

/-- C8: summarizing an empty verdict list yields the all-zero report (in
particular no division-by-zero fault: the guard of line 196 skips the
average);
in general the average load time is exactly the mean of `loadTime` over
the succeeded entries, and it is 0 when none succeeded. -/
theorem summarize_empty_and_average :
    summarize [] =
      { total := 0, succeededCount := 0, failedCount := 0,
        conversionsAvoided := 0, averageLoadTimeMillis := 0,
        perCodecCounts := [] } ∧
    ∀ rs : List TestResult,
      ((rs.filter fun r => r.success) = [] →
        (summarize rs).averageLoadTimeMillis = 0) ∧
      (summarize rs).averageLoadTimeMillis =
        ((rs.filter fun r => r.success).map fun r => (r.loadTime : ℚ)).sum /
          (((rs.filter fun r => r.success).length : Nat) : ℚ) := by
  refine ⟨by decide, fun rs => ⟨?_, ?_⟩⟩
  · intro hempty
    simp [summarize, hempty]
  · unfold summarize
    by_cases h : (rs.filter fun r => r.success).length > 0
    · simp only [h, if_pos]
    · simp only [h, if_neg]
      have hz : (rs.filter fun r => r.success).length = 0 := by omega
      rw [hz]
      norm_num

/-- Witness for C8: a list with a single failed entry has no succeeded
entries, so its average load time is 0. -/
theorem summarize_empty_and_average_witness :
    (summarize [sampleFailResult]).averageLoadTimeMillis = 0 :=
  ((summarize_empty_and_average.2 [sampleFailResult]).1) (by decide)

/-- C9: a verdict whose probe failed is counted in the total of the
report and in `failedCount`, but changes neither the succeeded count, the
conversions-avoided count, the per-codec tallies, nor the average load
time. -/
theorem failed_entry_counted_but_excluded (rs : List TestResult) (r : TestResult)
    (hf : r.success = false) :
    (summarize (r :: rs)).total = (summarize rs).total + 1 ∧
    (summarize (r :: rs)).failedCount = (summarize rs).failedCount + 1 ∧
    (summarize (r :: rs)).succeededCount = (summarize rs).succeededCount ∧
    (summarize (r :: rs)).conversionsAvoided = (summarize rs).conversionsAvoided ∧
    (summarize (r :: rs)).perCodecCounts = (summarize rs).perCodecCounts ∧
    (summarize (r :: rs)).averageLoadTimeMillis = (summarize rs).averageLoadTimeMillis := by
  unfold summarize
  simp [List.filter_cons, hf]

/-- Witness for C9: prepending the failed sample entry to a singleton
succeeded list bumps `total` and `failedCount` only. -/
theorem failed_entry_counted_but_excluded_witness :
    (summarize [sampleFailResult, sampleOkResult]).total =
      (summarize [sampleOkResult]).total + 1 ∧
    (summarize [sampleFailResult, sampleOkResult]).failedCount =
      (summarize [sampleOkResult]).failedCount + 1 ∧
    (summarize [sampleFailResult, sampleOkResult]).succeededCount =
      (summarize [sampleOkResult]).succeededCount ∧
    (summarize [sampleFailResult, sampleOkResult]).conversionsAvoided =
      (summarize [sampleOkResult]).conversionsAvoided ∧
    (summarize [sampleFailResult, sampleOkResult]).perCodecCounts =
      (summarize [sampleOkResult]).perCodecCounts ∧
    (summarize [sampleFailResult, sampleOkResult]).averageLoadTimeMillis =
      (summarize [sampleOkResult]).averageLoadTimeMillis :=
  failed_entry_counted_but_excluded [sampleOkResult] sampleFailResult (by decide)

/-- Witness for C10: `"xH263x"` is not itself any rule entry, yet it
contains `"h263"` properly, so it classifies as an unsupported codec under
the rule set of the program. -/
theorem codec_match_is_substring_containment_witness :
    lowerStr "xH263x" ≠ "h263" ∧
    (wouldConvertOf (lowerStr "xH263x") ".mp4"
        VIDVUR_UNSUPPORTED_CODECS VIDVUR_CONVERSION_FORMATS = true ∧
     reasonOf (lowerStr "xH263x") ".mp4"
        VIDVUR_UNSUPPORTED_CODECS VIDVUR_CONVERSION_FORMATS = some "Unsupported codec") :=
  ⟨by decide,
   codec_match_is_substring_containment "xH263x" ".mp4"
     VIDVUR_UNSUPPORTED_CODECS VIDVUR_CONVERSION_FORMATS "h263"
     (by decide) (Or.inl (by decide))⟩

end Vidvur

